import Mathlib

/-!
Shallow embedding of the client-side event batching subsystem
(class EventBatcher, src/unnamed/part_009) of the observability repository.

Modelling conventions:
* Event records are opaque to the batcher; the embedding is parametric in the
  record type E.
* generateEventId() produces a fresh unique identifier on each call (its unit
  test asserts uniqueness); it is modelled as a counter nextId threaded
  through the batcher state, each call returning the current value and
  incrementing it.
* Date.now() is modelled by a fixed field now of the state; no claim depends
  on time advancing.
* JSON serialization is injective on envelopes, so a serialized payload is
  identified with the EventBatch value it serializes; the transports
  (navigator.sendBeacon, fetch) are an environment of functions from
  payloads to results.
* localStorage under the key obs_failed_batches is the field localStore; a
  missing key is the empty list.  The try/catch guards around storage access
  are modelled by the environment flag storageOk (false = the storage
  operation throws and the catch block swallows it).
* The caller-supplied callbacks onError/onSuccess are modelled by recording
  their invocation arguments in the result of each operation.
-/

namespace Observability

/-- EventBatch envelope: batch_id, batch_timestamp, events (part_009 lines 106-110). -/
structure EventBatch (E : Type) where
  batch_id : Nat
  batch_timestamp : Nat
  events : List E
  deriving Repr, DecidableEq

/-- BatcherConfig (part_009 lines 4-13): optional numeric fields; the headers
and callback fields are modelled elsewhere (callbacks as recorded calls). -/
structure BatcherConfig where
  endpoint : String
  batchSize : Option Int := none
  flushInterval : Option Int := none
  maxRetries : Option Int := none
  retryDelay : Option Int := none
  deriving Repr, DecidableEq

/-- Required configuration after the constructor fills defaults. -/
structure RequiredConfig where
  endpoint : String
  batchSize : Int
  flushInterval : Int
  maxRetries : Int
  retryDelay : Int
  deriving Repr, DecidableEq

/-- JavaScript value-or-default idiom used in the constructor:
(v || d) yields d when v is undefined or the falsy number 0. -/
def orDefault (v : Option Int) (d : Int) : Int :=
  match v with
  | none => d
  | some x => if x = 0 then d else x

/-- Constructor of EventBatcher (part_009 lines 23-33): fills every field with
a default via the JavaScript falsy-or idiom.  The constructor body contains no
validation and no throw statement, so it is a total function. -/
def mkRequiredConfig (c : BatcherConfig) : RequiredConfig :=
  { endpoint := c.endpoint
    batchSize := orDefault c.batchSize 50
    flushInterval := orDefault c.flushInterval 5000
    maxRetries := orDefault c.maxRetries 3
    retryDelay := orDefault c.retryDelay 1000 }

/-- Mutable state of an EventBatcher instance (part_009 lines 16-21), plus the
modelled generateEventId counter, Date.now value, and localStorage content. -/
structure BatcherState (E : Type) where
  config : RequiredConfig
  eventBuffer : List E
  isOnline : Bool
  failedBatches : List (EventBatch E)
  localStore : List (EventBatch E)
  nextId : Nat
  now : Nat
  deriving Repr, DecidableEq

/-- Result of a fetch call: a thrown network error, or a response with an
HTTP status code. -/
inductive FetchResult where
  | throwErr : String → FetchResult
  | status : Nat → FetchResult
  deriving Repr, DecidableEq

/-- Host environment: beacon availability and behaviour, fetch behaviour, and
whether localStorage operations succeed. -/
structure SendEnv (E : Type) where
  beaconAvailable : Bool
  beacon : EventBatch E → Bool
  fetch : EventBatch E → FetchResult
  storageOk : Bool

/-- Outcome of the fetch path of sendBatch (part_009 lines 136-148): a thrown
error propagates; a response with response.ok false (status outside 200-299)
raises the HTTP error; otherwise the send succeeds. -/
def fetchOutcome : FetchResult → Except String Unit
  | .throwErr e => .error e
  | .status s =>
      if 200 ≤ s ∧ s < 300 then .ok ()
      else .error ("HTTP error! status: " ++ toString s)

/-- Transport calls made by one sendBatch invocation, and its outcome. -/
structure SendTrace (E : Type) where
  beaconCalls : List (EventBatch E)
  fetchCalls : List (EventBatch E)
  result : Except String Unit
  deriving Repr

/-- sendBatch (part_009 lines 122-149): serialize once; if useBeacon and the
beacon API exists, try navigator.sendBeacon and return on success, falling
through to fetch when the beacon reports failure; otherwise fetch directly. -/
def sendBatch (env : SendEnv E) (batch : EventBatch E) (useBeacon : Bool) :
    SendTrace E :=
  if useBeacon ∧ env.beaconAvailable then
    if env.beacon batch then
      { beaconCalls := [batch], fetchCalls := [], result := .ok () }
    else
      { beaconCalls := [batch], fetchCalls := [batch]
        result := fetchOutcome (env.fetch batch) }
  else
    { beaconCalls := [], fetchCalls := [batch]
      result := fetchOutcome (env.fetch batch) }

/-- JavaScript Array.prototype.slice with a negative start: keep the last n
elements (part_009 line 167). -/
def lastN (n : Nat) (l : List α) : List α :=
  l.drop (l.length - n)

/-- storeFailedBatch (part_009 lines 151-175): wrap the records in a NEW
envelope with a freshly generated batch_id, push it onto failedBatches, and
best-effort persist it to localStorage trimmed to the last 100 entries. -/
def storeFailedBatch (env : SendEnv E) (s : BatcherState E) (events : List E) :
    BatcherState E :=
  let batch : EventBatch E :=
    { batch_id := s.nextId, batch_timestamp := s.now, events := events }
  let s1 := { s with nextId := s.nextId + 1
                     failedBatches := s.failedBatches ++ [batch] }
  if env.storageOk then
    { s1 with localStore := lastN 100 (s1.localStore ++ [batch]) }
  else s1

/-- Observable effects of one flush call: resulting state, transport calls,
and callback invocations. -/
structure FlushResult (E : Type) where
  state : BatcherState E
  beaconCalls : List (EventBatch E)
  fetchCalls : List (EventBatch E)
  onSuccessCalls : List (List E)
  onErrorCalls : List (String × List E)
  deriving Repr, DecidableEq

/-- flush (part_009 lines 91-120): no-op on an empty buffer; offline, spill
the buffer without any transport call; otherwise drain the buffer by an
exclusive swap, build one envelope with a fresh batch_id, send it, and invoke
onSuccess with the original records, or on failure invoke onError with the
error and the original records and spill them. -/
def flush (env : SendEnv E) (s : BatcherState E) (useBeacon : Bool) :
    FlushResult E :=
  if s.eventBuffer.isEmpty then
    { state := s, beaconCalls := [], fetchCalls := []
      onSuccessCalls := [], onErrorCalls := [] }
  else if s.isOnline = false then
    let s1 := storeFailedBatch env s s.eventBuffer
    { state := { s1 with eventBuffer := [] }
      beaconCalls := [], fetchCalls := [], onSuccessCalls := [], onErrorCalls := [] }
  else
    let events := s.eventBuffer
    let s1 := { s with eventBuffer := [] }
    let batch : EventBatch E :=
      { batch_id := s1.nextId, batch_timestamp := s1.now, events := events }
    let s2 := { s1 with nextId := s1.nextId + 1 }
    let tr := sendBatch env batch useBeacon
    match tr.result with
    | .ok _ =>
        { state := s2, beaconCalls := tr.beaconCalls, fetchCalls := tr.fetchCalls
          onSuccessCalls := [events], onErrorCalls := [] }
    | .error e =>
        { state := storeFailedBatch env s2 events
          beaconCalls := tr.beaconCalls, fetchCalls := tr.fetchCalls
          onSuccessCalls := [], onErrorCalls := [(e, events)] }

/-- addEvent (part_009 lines 73-80): push the record, then flush immediately
if the buffer length reached config.batchSize. -/
def addEvent (env : SendEnv E) (s : BatcherState E) (e : E) : FlushResult E :=
  let s1 := { s with eventBuffer := s.eventBuffer ++ [e] }
  if (s1.eventBuffer.length : Int) ≥ s1.config.batchSize then
    flush env s1 false
  else
    { state := s1, beaconCalls := [], fetchCalls := []
      onSuccessCalls := [], onErrorCalls := [] }

/-- addEvents (part_009 lines 82-89): bulk append, then one threshold check. -/
def addEvents (env : SendEnv E) (s : BatcherState E) (events : List E) :
    FlushResult E :=
  let s1 := { s with eventBuffer := s.eventBuffer ++ events }
  if (s1.eventBuffer.length : Int) ≥ s1.config.batchSize then
    flush env s1 false
  else
    { state := s1, beaconCalls := [], fetchCalls := []
      onSuccessCalls := [], onErrorCalls := [] }

/-- Accumulated observations of the retry loop (part_009 lines 202-213):
batches still failed after the loop, transport attempts in order, and
callback invocations in order. -/
structure SweepLoopResult (E : Type) where
  failed : List (EventBatch E)
  attempts : List (EventBatch E)
  onSuccessCalls : List (List E)
  onErrorCalls : List (String × List E)
  deriving Repr, DecidableEq

/-- Retry loop body (part_009 lines 202-213): for each batch in order, send it
via sendBatch with the default useBeacon = false; on success invoke onSuccess
with its events, on failure invoke onError and re-add the batch (unchanged,
same identity) to the failed list. -/
def sweepLoop (env : SendEnv E) : List (EventBatch E) → SweepLoopResult E
  | [] => { failed := [], attempts := [], onSuccessCalls := [], onErrorCalls := [] }
  | b :: rest =>
    let tr := sendBatch env b false
    let r := sweepLoop env rest
    match tr.result with
    | .ok _ =>
        { failed := r.failed, attempts := b :: r.attempts
          onSuccessCalls := b.events :: r.onSuccessCalls
          onErrorCalls := r.onErrorCalls }
    | .error e =>
        { failed := b :: r.failed, attempts := b :: r.attempts
          onSuccessCalls := r.onSuccessCalls
          onErrorCalls := (e, b.events) :: r.onErrorCalls }

/-- Observable effects of one retry sweep: resulting state, attempts,
callback invocations, and the delay of the rescheduled sweep if any. -/
structure SweepResult (E : Type) where
  state : BatcherState E
  attempts : List (EventBatch E)
  onSuccessCalls : List (List E)
  onErrorCalls : List (String × List E)
  scheduledDelay : Option Int
  deriving Repr, DecidableEq

/-- retryFailedBatches (part_009 lines 177-225): bail out when offline; load
any persisted batches from localStorage (appending them after the in-memory
ones) and clear the persisted key; return if nothing to retry; otherwise swap
out the failed list, attempt every batch in order, re-collect failures, and
if any remain schedule another sweep after retryDelay * min(failedCount, 10). -/
def retryFailedBatches (env : SendEnv E) (s : BatcherState E) : SweepResult E :=
  if s.isOnline = false then
    { state := s, attempts := [], onSuccessCalls := [], onErrorCalls := []
      scheduledDelay := none }
  else
    let s1 :=
      if env.storageOk then
        { s with failedBatches := s.failedBatches ++ s.localStore, localStore := [] }
      else s
    if s1.failedBatches.isEmpty then
      { state := s1, attempts := [], onSuccessCalls := [], onErrorCalls := []
        scheduledDelay := none }
    else
      let toRetry := s1.failedBatches
      let s2 := { s1 with failedBatches := [] }
      let r := sweepLoop env toRetry
      { state := { s2 with failedBatches := r.failed }
        attempts := r.attempts
        onSuccessCalls := r.onSuccessCalls
        onErrorCalls := r.onErrorCalls
        scheduledDelay :=
          if 0 < r.failed.length then
            some (s2.config.retryDelay * min (r.failed.length : Int) 10)
          else none }

/-- Handler of the window online event (part_009 lines 41-44): set
isOnline = true, then run a retry sweep. -/
def handleOnline (env : SendEnv E) (s : BatcherState E) : SweepResult E :=
  retryFailedBatches env { s with isOnline := true }

/-- Delivery of a batch via the standard transport fails (thrown error or
non-2xx status). -/
def deliveryFails (env : SendEnv E) (b : EventBatch E) : Bool :=
  match fetchOutcome (env.fetch b) with
  | .ok _ => false
  | .error _ => true

/-- Same state except for the configured maxRetries value: used to establish
that the retry sweep never consults maxRetries. -/
def setMaxRetries (s : BatcherState E) (m : Int) : BatcherState E :=
  { s with config := { s.config with maxRetries := m } }

/-- Sequential addEvent calls, collecting the resulting state and every
transport call made along the way. -/
def runAddEvents (env : SendEnv E) (s : BatcherState E) :
    List E → BatcherState E × List (EventBatch E)
  | [] => (s, [])
  | e :: rest =>
    let r := addEvent env s e
    let p := runAddEvents env r.state rest
    (p.1, (r.beaconCalls ++ r.fetchCalls) ++ p.2)

/-- Fixture: environment whose fetch always answers HTTP 200, beacon API
absent, storage working. -/
def envAllOk : SendEnv Nat :=
  { beaconAvailable := false, beacon := fun _ => false
    fetch := fun _ => .status 200, storageOk := true }

/-- Fixture: environment whose fetch always answers HTTP 500, beacon API
absent, storage working. -/
def envAllFail : SendEnv Nat :=
  { beaconAvailable := false, beacon := fun _ => false
    fetch := fun _ => .status 500, storageOk := true }

/-- Fixture: environment with the beacon API present but refusing every
payload, fetch answering HTTP 200, storage working. -/
def envBeaconRefuse : SendEnv Nat :=
  { beaconAvailable := true, beacon := fun _ => false
    fetch := fun _ => .status 200, storageOk := true }

/-- Fixture: configuration with every optional field defaulted. -/
def cfgDefault : RequiredConfig := mkRequiredConfig { endpoint := "e" }

/-- Fixture: offline batcher holding one buffered record. -/
def stOffline : BatcherState Nat :=
  { config := cfgDefault, eventBuffer := [7], isOnline := false
    failedBatches := [], localStore := [], nextId := 0, now := 0 }

/-- Fixture: online batcher holding one buffered record. -/
def stOnline : BatcherState Nat :=
  { config := cfgDefault, eventBuffer := [7], isOnline := true
    failedBatches := [], localStore := [], nextId := 0, now := 0 }

/-- Fixture: online batcher with batchSize 3 and an empty buffer. -/
def stSize3 : BatcherState Nat :=
  { config := mkRequiredConfig { endpoint := "e", batchSize := some 3 }
    eventBuffer := [], isOnline := true
    failedBatches := [], localStore := [], nextId := 0, now := 0 }

/-- Fixture: online batcher with one batch in the in-memory failed list. -/
def stFailed1 : BatcherState Nat :=
  { config := cfgDefault, eventBuffer := [], isOnline := true
    failedBatches := [⟨0, 0, [1]⟩], localStore := [], nextId := 1, now := 0 }

/-- Fixture: online batcher constructed with the invalid batchSize -1, which
the constructor keeps verbatim. -/
def stNegSize : BatcherState Nat :=
  { config := mkRequiredConfig { endpoint := "e", batchSize := some (-1) }
    eventBuffer := [], isOnline := true
    failedBatches := [], localStore := [], nextId := 0, now := 0 }

end Observability

/-!
Event-loop interleaving model of addEvent / flush for the atomicity claim.

JavaScript is single-threaded cooperative: an async function body runs
atomically up to its first await.  In flush (part_009 lines 91-120) the only
suspension point is the awaited transport call (line 113); the empty-buffer
check, the offline branch, the drain (lines 103-104, an exclusive swap of the
buffer reference) and envelope construction all execute before it.  So an
arbitrary schedule of addEvent and flush calls decomposes into atomic steps:
an add step (addEvent line 74; the threshold-triggered flush of line 78 is
the next drain step of the schedule), a drain step (the synchronous prefix of
flush up to the transport call, producing an in-flight delivery attempt), and
a resolve step (the continuation after the await: lines 114-119, moving the
attempted records to delivered on success or to the spill store on failure).
Records are identified by the order of their addEvent calls, so the record of
the n-th add step is the number n.
-/

namespace Observability.Interleaving

/-- State of the event loop: how many records were added so far, the
batcher's buffer, the records of each in-flight delivery attempt (in the
order the drains happened), and the records already delivered or spilled. -/
structure St where
  counter : Nat
  buffer : List Nat
  inFlight : List (List Nat)
  delivered : List Nat
  spilled : List Nat
  deriving Repr, DecidableEq

/-- Initial state: fresh batcher, nothing added. -/
def init : St := ⟨0, [], [], [], []⟩

/-- Atomic steps of a schedule of addEvent and flush calls. -/
inductive Step where
  | add : Step
  | drain : Step
  | resolve : Nat → Bool → Step
  deriving Repr, DecidableEq

/-- Effect of one atomic step.  add appends the next record to the buffer
(part_009 line 74).  drain is the synchronous prefix of flush: a no-op on an
empty buffer (line 92), otherwise the exclusive swap of lines 103-104 moving
the whole buffer into a new in-flight attempt.  resolve k finishes the k-th
pending attempt: its records go to delivered (line 114) or to the spill store
(line 118); resolving an attempt that does not exist does nothing. -/
def applyStep (s : St) : Step → St
  | .add =>
      { s with buffer := s.buffer ++ [s.counter], counter := s.counter + 1 }
  | .drain =>
      if s.buffer.isEmpty then s
      else { s with buffer := [], inFlight := s.inFlight ++ [s.buffer] }
  | .resolve k ok =>
      match s.inFlight[k]? with
      | none => s
      | some b =>
        if ok then
          { s with inFlight := s.inFlight.eraseIdx k, delivered := s.delivered ++ b }
        else
          { s with inFlight := s.inFlight.eraseIdx k, spilled := s.spilled ++ b }

/-- Run a whole schedule from the initial state. -/
def run (steps : List Step) : St :=
  steps.foldl applyStep init

/-- Every place a record can live: the buffer, some in-flight delivery
attempt, delivered, or spilled. -/
def allRecords (s : St) : List Nat :=
  s.buffer ++ s.inFlight.flatten ++ s.delivered ++ s.spilled

/-- Multiset of all records currently anywhere in the system. -/
def totalRecords (s : St) : Multiset Nat :=
  (s.buffer : Multiset Nat) + (s.inFlight.flatten : Multiset Nat)
    + (s.delivered : Multiset Nat) + (s.spilled : Multiset Nat)

theorem totalRecords_eq_coe_allRecords (s : St) :
    totalRecords s = (allRecords s : Multiset Nat) := by
  simp only [totalRecords, allRecords, ← Multiset.coe_add, List.append_assoc,
    add_assoc]

theorem flatten_eraseIdx (l : List (List Nat)) (k : Nat) (b : List Nat)
    (h : l[k]? = some b) :
    ((l.eraseIdx k).flatten : Multiset Nat) + (b : Multiset Nat)
      = (l.flatten : Multiset Nat) := by
  induction l generalizing k with
  | nil => simp at h
  | cons x xs ih =>
    cases k with
    | zero =>
      simp only [List.getElem?_cons_zero, Option.some_inj] at h
      subst h
      simp only [List.eraseIdx, List.flatten_cons, ← Multiset.coe_add]
      exact add_comm _ _
    | succ k =>
      simp only [List.getElem?_cons_succ] at h
      have hx := ih k h
      simp only [List.eraseIdx, List.flatten_cons, ← Multiset.coe_add]
      rw [add_assoc, hx]

/-- One atomic step preserves the accounting invariant. -/
theorem applyStep_invariant (s : St) (st : Step)
    (h : totalRecords s = Multiset.range s.counter) :
    totalRecords (applyStep s st) = Multiset.range (applyStep s st).counter := by
  cases st with
  | add =>
    simp only [applyStep, totalRecords] at h ⊢
    rw [Multiset.range_succ, ← Multiset.singleton_add, ← h,
      ← Multiset.coe_singleton]
    simp only [← Multiset.coe_add]
    abel
  | drain =>
    by_cases hb : s.buffer.isEmpty
    · simp [applyStep, hb, h]
    · simp only [applyStep, hb, Bool.false_eq_true, if_false, totalRecords] at h ⊢
      rw [← h]
      simp only [List.flatten_append, List.flatten_cons, List.flatten_nil,
        List.append_nil, Multiset.coe_nil, ← Multiset.coe_add]
      abel
  | resolve k ok =>
    rcases hk : s.inFlight[k]? with _ | b
    · simp [applyStep, hk, h]
    · have hrec := flatten_eraseIdx s.inFlight k b hk
      cases ok with
      | true =>
        simp only [applyStep, hk, if_true, totalRecords] at h ⊢
        rw [← h, ← hrec]
        simp only [← Multiset.coe_add]
        abel
      | false =>
        simp only [applyStep, hk, Bool.false_eq_true, if_false, totalRecords] at h ⊢
        rw [← h, ← hrec]
        simp only [← Multiset.coe_add]
        abel

theorem foldl_invariant (steps : List Step) (s : St)
    (h : totalRecords s = Multiset.range s.counter) :
    totalRecords (steps.foldl applyStep s)
      = Multiset.range (steps.foldl applyStep s).counter := by
  induction steps generalizing s with
  | nil => exact h
  | cons st rest ih =>
    exact ih (applyStep s st) (applyStep_invariant s st h)

theorem run_invariant (steps : List Step) :
    totalRecords (run steps) = Multiset.range (run steps).counter := by
  have hinit : totalRecords init = Multiset.range init.counter := by
    simp [totalRecords, init]
  exact foldl_invariant steps init hinit

end Observability.Interleaving

namespace Observability

/-- C1: for every interleaving of addEvent and flush calls on a single
EventBatcher (every schedule of atomic event-loop steps), buffer draining is
atomic: the multiset of records across the buffer, the in-flight delivery
attempts, the delivered records and the spilled records is exactly one copy
of every record ever added (Multiset.range of the add counter), and in
particular the concatenation of all those locations has no duplicate — so no
record added during a drain is lost, and no buffered record ever appears in
two separate delivery attempts, even if a second flush is triggered while the
first is still awaiting network resolution. -/
theorem C1_buffer_drain_atomic (steps : List Interleaving.Step) :
    ((Interleaving.allRecords (Interleaving.run steps) : Multiset Nat)
        = Multiset.range (Interleaving.run steps).counter)
      ∧ (Interleaving.allRecords (Interleaving.run steps)).Nodup := by
  have h := Interleaving.run_invariant steps
  rw [Interleaving.totalRecords_eq_coe_allRecords] at h
  refine ⟨h, ?_⟩
  have : (Interleaving.allRecords (Interleaving.run steps) : Multiset Nat).Nodup := by
    rw [h]
    exact Multiset.nodup_range _
  exact Multiset.coe_nodup.mp this

end Observability

namespace Observability

theorem sendBatch_noBeacon (env : SendEnv E) (b : EventBatch E) :
    sendBatch env b false =
      { beaconCalls := [], fetchCalls := [b]
        result := fetchOutcome (env.fetch b) } := by
  simp [sendBatch]

/-- The retry loop attempts exactly the batches it is given, in order. -/
theorem sweepLoop_attempts (env : SendEnv E) (l : List (EventBatch E)) :
    (sweepLoop env l).attempts = l := by
  induction l with
  | nil => rfl
  | cons b rest ih =>
    rcases h : fetchOutcome (env.fetch b) with e | u <;>
      simp [sweepLoop, sendBatch_noBeacon, h, ih]

/-- The retry loop re-collects exactly the batches whose delivery failed,
unchanged and in order. -/
theorem sweepLoop_failed (env : SendEnv E) (l : List (EventBatch E)) :
    (sweepLoop env l).failed = l.filter (deliveryFails env) := by
  induction l with
  | nil => rfl
  | cons b rest ih =>
    rcases h : fetchOutcome (env.fetch b) with e | u <;>
      simp [sweepLoop, sendBatch_noBeacon, h, ih, deliveryFails, List.filter_cons]

/-- Closed form of a retry sweep while online with working storage. -/
theorem retryFailedBatches_online_eq (env : SendEnv E) (s : BatcherState E)
    (hon : s.isOnline = true) (hst : env.storageOk = true) :
    retryFailedBatches env s =
      { state := { s with
          failedBatches := (sweepLoop env (s.failedBatches ++ s.localStore)).failed
          localStore := [] }
        attempts := (sweepLoop env (s.failedBatches ++ s.localStore)).attempts
        onSuccessCalls := (sweepLoop env (s.failedBatches ++ s.localStore)).onSuccessCalls
        onErrorCalls := (sweepLoop env (s.failedBatches ++ s.localStore)).onErrorCalls
        scheduledDelay :=
          if 0 < (sweepLoop env (s.failedBatches ++ s.localStore)).failed.length
          then some (s.config.retryDelay
            * min ((sweepLoop env (s.failedBatches ++ s.localStore)).failed.length : Int) 10)
          else none } := by
  unfold retryFailedBatches
  rw [hon]
  by_cases he : (s.failedBatches ++ s.localStore).isEmpty
  · rcases List.append_eq_nil.mp (List.isEmpty_iff.mp he) with ⟨h1, h2⟩
    simp [hst, h1, h2, sweepLoop]
  · simp [hst, he]

/-- Attempts of a retry sweep while online with working storage: the
in-memory list followed by the persisted list. -/
theorem retry_attempts (env : SendEnv E) (s : BatcherState E)
    (hon : s.isOnline = true) (hst : env.storageOk = true) :
    (retryFailedBatches env s).attempts = s.failedBatches ++ s.localStore := by
  rw [retryFailedBatches_online_eq env s hon hst]
  exact sweepLoop_attempts env _

theorem retry_state_failed (env : SendEnv E) (s : BatcherState E)
    (hon : s.isOnline = true) (hst : env.storageOk = true) :
    (retryFailedBatches env s).state.failedBatches
      = (s.failedBatches ++ s.localStore).filter (deliveryFails env) := by
  rw [retryFailedBatches_online_eq env s hon hst]
  exact sweepLoop_failed env _

theorem retry_state_localStore (env : SendEnv E) (s : BatcherState E)
    (hon : s.isOnline = true) (hst : env.storageOk = true) :
    (retryFailedBatches env s).state.localStore = [] := by
  rw [retryFailedBatches_online_eq env s hon hst]

theorem retry_delay (env : SendEnv E) (s : BatcherState E)
    (hon : s.isOnline = true) (hst : env.storageOk = true) :
    (retryFailedBatches env s).scheduledDelay =
      (if 0 < ((s.failedBatches ++ s.localStore).filter (deliveryFails env)).length
       then some (s.config.retryDelay
         * min (((s.failedBatches ++ s.localStore).filter (deliveryFails env)).length : Int) 10)
       else none) := by
  rw [retryFailedBatches_online_eq env s hon hst]
  simp only [sweepLoop_failed]

theorem retry_onSuccessCalls (env : SendEnv E) (s : BatcherState E)
    (hon : s.isOnline = true) (hst : env.storageOk = true) :
    (retryFailedBatches env s).onSuccessCalls
      = (sweepLoop env (s.failedBatches ++ s.localStore)).onSuccessCalls := by
  rw [retryFailedBatches_online_eq env s hon hst]

theorem retry_onErrorCalls (env : SendEnv E) (s : BatcherState E)
    (hon : s.isOnline = true) (hst : env.storageOk = true) :
    (retryFailedBatches env s).onErrorCalls
      = (sweepLoop env (s.failedBatches ++ s.localStore)).onErrorCalls := by
  rw [retryFailedBatches_online_eq env s hon hst]

end Observability

namespace Observability

/-- C2: a flush performed while Offline with a non-empty buffer makes zero
transport calls and spills exactly one batch holding the buffered records,
leaving the buffer empty; the Offline-to-Online transition immediately runs a
retry sweep which, when delivery succeeds, attempts that batch and removes it
from the spill store (in-memory and persisted). -/
theorem C2_offline_spill_roundtrip (env : SendEnv E) (s : BatcherState E) (u : Bool)
    (hoff : s.isOnline = false)
    (hne : s.eventBuffer ≠ [])
    (hfb : s.failedBatches = [])
    (hls : s.localStore = [])
    (hst : env.storageOk = true)
    (hok : ∀ b : EventBatch E, fetchOutcome (env.fetch b) = .ok ()) :
    (flush env s u).beaconCalls = [] ∧
    (flush env s u).fetchCalls = [] ∧
    (flush env s u).state.eventBuffer = [] ∧
    (flush env s u).state.failedBatches = [⟨s.nextId, s.now, s.eventBuffer⟩] ∧
    (flush env s u).state.localStore = [⟨s.nextId, s.now, s.eventBuffer⟩] ∧
    (⟨s.nextId, s.now, s.eventBuffer⟩ : EventBatch E)
      ∈ (handleOnline env (flush env s u).state).attempts ∧
    (handleOnline env (flush env s u).state).state.failedBatches = [] ∧
    (handleOnline env (flush env s u).state).state.localStore = [] ∧
    (handleOnline env (flush env s u).state).scheduledDelay = none := by
  have hmain : flush env s u =
      { state := { s with eventBuffer := []
                          nextId := s.nextId + 1
                          failedBatches := [⟨s.nextId, s.now, s.eventBuffer⟩]
                          localStore := [⟨s.nextId, s.now, s.eventBuffer⟩] }
        beaconCalls := [], fetchCalls := []
        onSuccessCalls := [], onErrorCalls := [] } := by
    unfold flush
    simp [hne, hoff, storeFailedBatch, hst, hfb, hls, lastN]
  have hdf : ∀ b : EventBatch E, deliveryFails env b = false := by
    intro b
    unfold deliveryFails
    rw [hok b]
  rw [hmain]
  unfold handleOnline
  refine ⟨rfl, rfl, rfl, rfl, rfl, ?_, ?_, ?_, ?_⟩
  · rw [retry_attempts env _ rfl hst]
    simp
  · rw [retry_state_failed env _ rfl hst]
    simp [hdf]
  · exact retry_state_localStore env _ rfl hst
  · rw [retry_delay env _ rfl hst]
    simp [hdf]

/-- Witness for C2: offline batcher with one buffered record and an
always-succeeding transport. -/
theorem C2_offline_spill_roundtrip_witness :
    (flush envAllOk stOffline false).beaconCalls = [] ∧
    (flush envAllOk stOffline false).fetchCalls = [] ∧
    (flush envAllOk stOffline false).state.eventBuffer = [] ∧
    (flush envAllOk stOffline false).state.failedBatches
      = [⟨stOffline.nextId, stOffline.now, stOffline.eventBuffer⟩] ∧
    (flush envAllOk stOffline false).state.localStore
      = [⟨stOffline.nextId, stOffline.now, stOffline.eventBuffer⟩] ∧
    (⟨stOffline.nextId, stOffline.now, stOffline.eventBuffer⟩ : EventBatch Nat)
      ∈ (handleOnline envAllOk (flush envAllOk stOffline false).state).attempts ∧
    (handleOnline envAllOk (flush envAllOk stOffline false).state).state.failedBatches = [] ∧
    (handleOnline envAllOk (flush envAllOk stOffline false).state).state.localStore = [] ∧
    (handleOnline envAllOk (flush envAllOk stOffline false).state).scheduledDelay = none :=
  C2_offline_spill_roundtrip envAllOk stOffline false rfl (by decide) rfl rfl rfl
    (fun _ => rfl)

end Observability

namespace Observability

/-- C3 counterexample: the claim fails in both of its parts.  First, a batch
spilled by an offline flush of the current instance is recorded both in the
in-memory failed list and in localStorage, so the first retry sweep after
going online attempts that one spilled batch twice, refuting that no batch is
attempted twice within one sweep.  Second, the sweep attempts the in-memory
list before the persisted entries, so an earlier-spilled batch surviving only
in the persisted store (id 0) is attempted after a later-spilled in-memory
batch (id 1), refuting that a batch spilled earlier is always attempted
before a batch spilled later. -/
theorem C3_sweep_double_attempt_counterexample :
    ((handleOnline envAllOk (flush envAllOk stOffline false).state).attempts
      = [⟨0, 0, [7]⟩, ⟨0, 0, [7]⟩] ∧
    ¬ (handleOnline envAllOk (flush envAllOk stOffline false).state).attempts.Nodup) ∧
    (retryFailedBatches envAllOk
      { config := cfgDefault, eventBuffer := [], isOnline := true
        failedBatches := [⟨1, 0, [2]⟩], localStore := [⟨0, 0, [1]⟩]
        nextId := 2, now := 0 }).attempts
      = [⟨1, 0, [2]⟩, ⟨0, 0, [1]⟩] := by
  decide

/-- C3 amended: a retry sweep attempts exactly the concatenation of the
in-memory failed list (in spill order) followed by the persisted entries (in
spill order), each element of that concatenation exactly once.  No ordering
across the two groups is guaranteed: spilling records a batch in both stores,
so a batch spilled by the current instance occurs twice in the attempt
sequence, and a persisted-but-not-yet-loaded batch is attempted after every
in-memory batch even when it was spilled earlier; FIFO spill order holds only
within each group. -/
theorem C3_sweep_attempt_order (env : SendEnv E) (s : BatcherState E)
    (hon : s.isOnline = true) (hst : env.storageOk = true) :
    (retryFailedBatches env s).attempts = s.failedBatches ++ s.localStore :=
  retry_attempts env s hon hst

/-- Witness for the amended C3 at a state holding one in-memory and one
persisted batch. -/
theorem C3_sweep_attempt_order_witness :
    (retryFailedBatches envAllOk
      { config := cfgDefault, eventBuffer := [], isOnline := true
        failedBatches := [⟨0, 0, [1]⟩], localStore := [⟨1, 0, [2]⟩]
        nextId := 2, now := 0 }).attempts
      = [⟨0, 0, [1]⟩] ++ [⟨1, 0, [2]⟩] :=
  C3_sweep_attempt_order envAllOk
    { config := cfgDefault, eventBuffer := [], isOnline := true
      failedBatches := [⟨0, 0, [1]⟩], localStore := [⟨1, 0, [2]⟩]
      nextId := 2, now := 0 } rfl rfl

/-- C4: during an urgent flush with the beacon API present, when the beacon
reports failure by returning false (not by throwing), the standard transport
is invoked with the same serialized payload within the same flush call. -/
theorem C4_urgent_beacon_fallback (env : SendEnv E) (s : BatcherState E)
    (hon : s.isOnline = true)
    (hne : s.eventBuffer ≠ [])
    (hba : env.beaconAvailable = true)
    (hbf : env.beacon ⟨s.nextId, s.now, s.eventBuffer⟩ = false) :
    (flush env s true).beaconCalls = [⟨s.nextId, s.now, s.eventBuffer⟩] ∧
    (flush env s true).fetchCalls = [⟨s.nextId, s.now, s.eventBuffer⟩] := by
  unfold flush
  rcases h : fetchOutcome (env.fetch ⟨s.nextId, s.now, s.eventBuffer⟩) with e | u <;>
    simp [hne, hon, sendBatch, hba, hbf, h]

/-- Witness for C4: beacon present but refusing, one buffered record. -/
theorem C4_urgent_beacon_fallback_witness :
    (flush envBeaconRefuse stOnline true).beaconCalls
      = [⟨stOnline.nextId, stOnline.now, stOnline.eventBuffer⟩] ∧
    (flush envBeaconRefuse stOnline true).fetchCalls
      = [⟨stOnline.nextId, stOnline.now, stOnline.eventBuffer⟩] :=
  C4_urgent_beacon_fallback envBeaconRefuse stOnline rfl (by decide) rfl rfl

end Observability

namespace Observability

/-- Online flush of a non-empty buffer with useBeacon false: exactly one
fetch call carrying the drained records, and the buffer ends empty. -/
theorem flush_online_fetch (env : SendEnv E) (s : BatcherState E)
    (hon : s.isOnline = true) (hne : s.eventBuffer ≠ []) :
    (flush env s false).beaconCalls = [] ∧
    (flush env s false).fetchCalls = [⟨s.nextId, s.now, s.eventBuffer⟩] ∧
    (flush env s false).state.eventBuffer = [] := by
  unfold flush
  rcases h : fetchOutcome (env.fetch ⟨s.nextId, s.now, s.eventBuffer⟩) with e | u <;>
    by_cases hsk : env.storageOk <;>
      simp [hne, hon, sendBatch_noBeacon, h, storeFailedBatch, hsk]

/-- C5: for an online flush of a non-empty buffer via the standard transport:
a thrown transport error or a non-2xx response status spills the batch and
invokes onError with the error and the original records (not the envelope),
while a 2xx response invokes onSuccess with the original records and spills
nothing. -/
theorem C5_standard_transport_outcome (env : SendEnv E) (s : BatcherState E)
    (hon : s.isOnline = true)
    (hne : s.eventBuffer ≠ []) :
    (∀ m, env.fetch ⟨s.nextId, s.now, s.eventBuffer⟩ = .throwErr m →
      (flush env s false).onErrorCalls = [(m, s.eventBuffer)] ∧
      (flush env s false).onSuccessCalls = [] ∧
      (flush env s false).state.failedBatches
        = s.failedBatches ++ [⟨s.nextId + 1, s.now, s.eventBuffer⟩]) ∧
    (∀ c, env.fetch ⟨s.nextId, s.now, s.eventBuffer⟩ = .status c →
      ¬ (200 ≤ c ∧ c < 300) →
      (flush env s false).onErrorCalls
        = [("HTTP error! status: " ++ toString c, s.eventBuffer)] ∧
      (flush env s false).onSuccessCalls = [] ∧
      (flush env s false).state.failedBatches
        = s.failedBatches ++ [⟨s.nextId + 1, s.now, s.eventBuffer⟩]) ∧
    (∀ c, env.fetch ⟨s.nextId, s.now, s.eventBuffer⟩ = .status c →
      (200 ≤ c ∧ c < 300) →
      (flush env s false).onSuccessCalls = [s.eventBuffer] ∧
      (flush env s false).onErrorCalls = [] ∧
      (flush env s false).state.failedBatches = s.failedBatches ∧
      (flush env s false).state.localStore = s.localStore) := by
  refine ⟨?_, ?_, ?_⟩
  · intro m hm
    unfold flush
    by_cases hsk : env.storageOk <;>
      simp [hne, hon, sendBatch_noBeacon, hm, fetchOutcome, storeFailedBatch, hsk]
  · intro c hc hbad
    unfold flush
    by_cases hsk : env.storageOk <;>
      simp [hne, hon, sendBatch_noBeacon, hc, fetchOutcome, hbad, storeFailedBatch, hsk]
  · intro c hc hgood
    unfold flush
    simp [hne, hon, sendBatch_noBeacon, hc, fetchOutcome, hgood]

/-- Witness for C5: online flush against a transport answering HTTP 200. -/
theorem C5_standard_transport_outcome_witness :
    (flush envAllOk stOnline false).onSuccessCalls = [stOnline.eventBuffer] ∧
    (flush envAllOk stOnline false).onErrorCalls = [] ∧
    (flush envAllOk stOnline false).state.failedBatches = stOnline.failedBatches ∧
    (flush envAllOk stOnline false).state.localStore = stOnline.localStore :=
  (C5_standard_transport_outcome envAllOk stOnline rfl (by decide)).2.2 200 rfl
    (by decide)

end Observability


namespace Observability

theorem runAddEvents_below (env : SendEnv E) (s : BatcherState E) (l : List E)
    (h : (s.eventBuffer.length : Int) + (l.length : Int) < s.config.batchSize) :
    runAddEvents env s l = ({ s with eventBuffer := s.eventBuffer ++ l }, []) := by
  induction l generalizing s with
  | nil => simp [runAddEvents]
  | cons e rest ih =>
    have hnotrig :
        ¬ (((s.eventBuffer ++ [e]).length : Int) ≥ s.config.batchSize) := by
      simp only [List.length_append, List.length_cons, List.length_nil] at h ⊢
      push_cast at h ⊢
      omega
    have hrec := ih { s with eventBuffer := s.eventBuffer ++ [e] } (by
      simp only [List.length_append, List.length_cons, List.length_nil] at h ⊢
      push_cast at h ⊢
      omega)
    simp only [runAddEvents, addEvent, hnotrig, if_false]
    rw [hrec]
    simp

theorem runAddEvents_append (env : SendEnv E) (l1 l2 : List E) (s : BatcherState E) :
    runAddEvents env s (l1 ++ l2)
      = ((runAddEvents env (runAddEvents env s l1).1 l2).1,
         (runAddEvents env s l1).2 ++ (runAddEvents env (runAddEvents env s l1).1 l2).2) := by
  induction l1 generalizing s with
  | nil => simp [runAddEvents]
  | cons e rest ih =>
    simp only [List.cons_append, runAddEvents, List.append_eq]
    rw [ih]
    simp [List.append_assoc]

/-- C6: with configured batch size n equal to the length of the record list,
adding the records one by one from an empty buffer makes no delivery attempt
before the n-th addEvent call; the n-th call, within that same call, makes
exactly one delivery attempt carrying exactly those n records in insertion
order and leaves the in-memory buffer empty; addEvents applies the same
threshold check once after the bulk append, with the same outcome. -/
theorem C6_threshold_flush (env : SendEnv E) (s : BatcherState E) (l : List E)
    (hne : l ≠ [])
    (hsz : s.config.batchSize = (l.length : Int))
    (hbuf : s.eventBuffer = [])
    (hon : s.isOnline = true) :
    (runAddEvents env s l).2 = [⟨s.nextId, s.now, l⟩] ∧
    (runAddEvents env s l).1.eventBuffer = [] ∧
    (addEvents env s l).beaconCalls = [] ∧
    (addEvents env s l).fetchCalls = [⟨s.nextId, s.now, l⟩] ∧
    (addEvents env s l).state.eventBuffer = [] := by
  have hsplit := List.dropLast_append_getLast hne
  have hlen : 0 < l.length := List.length_pos.mpr hne
  have hfl := flush_online_fetch env { s with eventBuffer := l } hon hne
  have hbelow : runAddEvents env s l.dropLast
      = ({ s with eventBuffer := l.dropLast }, []) := by
    have h1 := runAddEvents_below env s l.dropLast (by
      rw [hbuf, hsz]
      simp only [List.length_nil, List.length_dropLast]
      omega)
    rw [hbuf] at h1
    simpa using h1
  have hadd : addEvent env { s with eventBuffer := l.dropLast } (l.getLast hne)
      = flush env { s with eventBuffer := l } false := by
    simp [addEvent, hsplit, hsz]
  have hseq : runAddEvents env s l
      = ((flush env { s with eventBuffer := l } false).state,
         (flush env { s with eventBuffer := l } false).beaconCalls
           ++ (flush env { s with eventBuffer := l } false).fetchCalls) := by
    conv_lhs => rw [← hsplit]
    rw [runAddEvents_append env l.dropLast [l.getLast hne] s, hbelow]
    simp only [runAddEvents, hadd]
    simp
  have hadds : addEvents env s l = flush env { s with eventBuffer := l } false := by
    simp [addEvents, hbuf, hsz]
  refine ⟨?_, ?_, ?_, ?_, ?_⟩
  · rw [hseq]
    show (flush env { s with eventBuffer := l } false).beaconCalls
        ++ (flush env { s with eventBuffer := l } false).fetchCalls = _
    rw [hfl.1, hfl.2.1]
    simp
  · rw [hseq]
    exact hfl.2.2
  · rw [hadds]
    exact hfl.1
  · rw [hadds]
    rw [hfl.2.1]
  · rw [hadds]
    exact hfl.2.2

end Observability

namespace Observability

/-- Witness for C6: batch size 3, three records added. -/
theorem C6_threshold_flush_witness :
    (runAddEvents envAllOk stSize3 [10, 20, 30]).2
      = [⟨stSize3.nextId, stSize3.now, [10, 20, 30]⟩] ∧
    (runAddEvents envAllOk stSize3 [10, 20, 30]).1.eventBuffer = [] ∧
    (addEvents envAllOk stSize3 [10, 20, 30]).beaconCalls = [] ∧
    (addEvents envAllOk stSize3 [10, 20, 30]).fetchCalls
      = [⟨stSize3.nextId, stSize3.now, [10, 20, 30]⟩] ∧
    (addEvents envAllOk stSize3 [10, 20, 30]).state.eventBuffer = [] :=
  C6_threshold_flush envAllOk stSize3 [10, 20, 30] (by decide) (by decide) rfl rfl

end Observability

namespace Observability

/-- C7: after a retry sweep (online, storage working) the re-collected failed
list is exactly the spilled batches whose delivery failed, the next sweep is
scheduled after exactly retryDelay * min(failedCount, 10) when any remain
(and not at all otherwise), and the configured maxRetries value is never
consulted: every observable output of the sweep is unchanged under an
arbitrary change of maxRetries, so spilled batches are retried indefinitely.
-/
theorem C7_backoff_depth_no_max_retries (env : SendEnv E) (s : BatcherState E)
    (m : Int) (hon : s.isOnline = true) (hst : env.storageOk = true) :
    (retryFailedBatches env s).state.failedBatches
      = (s.failedBatches ++ s.localStore).filter (deliveryFails env) ∧
    (retryFailedBatches env s).scheduledDelay =
      (if 0 < ((s.failedBatches ++ s.localStore).filter (deliveryFails env)).length
       then some (s.config.retryDelay
         * min (((s.failedBatches ++ s.localStore).filter (deliveryFails env)).length : Int) 10)
       else none) ∧
    (retryFailedBatches env (setMaxRetries s m)).attempts
      = (retryFailedBatches env s).attempts ∧
    (retryFailedBatches env (setMaxRetries s m)).state.failedBatches
      = (retryFailedBatches env s).state.failedBatches ∧
    (retryFailedBatches env (setMaxRetries s m)).scheduledDelay
      = (retryFailedBatches env s).scheduledDelay ∧
    (retryFailedBatches env (setMaxRetries s m)).onSuccessCalls
      = (retryFailedBatches env s).onSuccessCalls ∧
    (retryFailedBatches env (setMaxRetries s m)).onErrorCalls
      = (retryFailedBatches env s).onErrorCalls := by
  have hon2 : (setMaxRetries s m).isOnline = true := hon
  refine ⟨retry_state_failed env s hon hst, retry_delay env s hon hst, ?_, ?_, ?_, ?_, ?_⟩
  · rw [retry_attempts env _ hon2 hst, retry_attempts env s hon hst]
    simp [setMaxRetries]
  · rw [retry_state_failed env _ hon2 hst, retry_state_failed env s hon hst]
    simp [setMaxRetries]
  · rw [retry_delay env _ hon2 hst, retry_delay env s hon hst]
    simp [setMaxRetries]
  · rw [retry_onSuccessCalls env _ hon2 hst, retry_onSuccessCalls env s hon hst]
    simp [setMaxRetries]
  · rw [retry_onErrorCalls env _ hon2 hst, retry_onErrorCalls env s hon hst]
    simp [setMaxRetries]

/-- Witness for C7: one chronically failing batch, maxRetries changed to 99. -/
theorem C7_backoff_depth_no_max_retries_witness :
    (retryFailedBatches envAllFail stFailed1).state.failedBatches
      = (stFailed1.failedBatches ++ stFailed1.localStore).filter (deliveryFails envAllFail) ∧
    (retryFailedBatches envAllFail stFailed1).scheduledDelay =
      (if 0 < ((stFailed1.failedBatches ++ stFailed1.localStore).filter
            (deliveryFails envAllFail)).length
       then some (stFailed1.config.retryDelay
         * min (((stFailed1.failedBatches ++ stFailed1.localStore).filter
             (deliveryFails envAllFail)).length : Int) 10)
       else none) ∧
    (retryFailedBatches envAllFail (setMaxRetries stFailed1 99)).attempts
      = (retryFailedBatches envAllFail stFailed1).attempts ∧
    (retryFailedBatches envAllFail (setMaxRetries stFailed1 99)).state.failedBatches
      = (retryFailedBatches envAllFail stFailed1).state.failedBatches ∧
    (retryFailedBatches envAllFail (setMaxRetries stFailed1 99)).scheduledDelay
      = (retryFailedBatches envAllFail stFailed1).scheduledDelay ∧
    (retryFailedBatches envAllFail (setMaxRetries stFailed1 99)).onSuccessCalls
      = (retryFailedBatches envAllFail stFailed1).onSuccessCalls ∧
    (retryFailedBatches envAllFail (setMaxRetries stFailed1 99)).onErrorCalls
      = (retryFailedBatches envAllFail stFailed1).onErrorCalls :=
  C7_backoff_depth_no_max_retries envAllFail stFailed1 99 rfl rfl

/-- C8 counterexample: an online flush whose delivery fails hands the spill
store an entry whose batch_id (1) differs from the batch_id of the envelope
whose delivery was attempted (0), refuting that the spilled entry carries the
same batch identity as the attempted envelope. -/
theorem C8_spill_identity_counterexample :
    (flush envAllFail stOnline false).fetchCalls = [⟨0, 0, [7]⟩] ∧
    (flush envAllFail stOnline false).state.failedBatches = [⟨1, 0, [7]⟩] ∧
    ¬ ((flush envAllFail stOnline false).state.failedBatches.map
          (fun b => b.batch_id)
        = (flush envAllFail stOnline false).fetchCalls.map
          (fun b => b.batch_id)) := by
  decide

/-- C8 amended: every flush creates exactly one envelope, with one batch
identifier generated at flush time; when delivery fails, the spill store
wraps the original records in a NEW envelope whose identifier is generated at
spill time (the next value of the id generator, hence different from the
attempted envelope's id); only within the retry sweep are failed entries
re-added unchanged, preserving their batch identity. -/
theorem C8_spill_fresh_identity (env : SendEnv E) (s s2 : BatcherState E)
    (hon : s.isOnline = true) (hne : s.eventBuffer ≠ [])
    (hfail : deliveryFails env ⟨s.nextId, s.now, s.eventBuffer⟩ = true)
    (hon2 : s2.isOnline = true) (hst : env.storageOk = true) :
    (flush env s false).fetchCalls = [⟨s.nextId, s.now, s.eventBuffer⟩] ∧
    (flush env s false).state.failedBatches
      = s.failedBatches ++ [⟨s.nextId + 1, s.now, s.eventBuffer⟩] ∧
    (∀ b : EventBatch E,
      b ∈ (retryFailedBatches env s2).state.failedBatches →
        b ∈ s2.failedBatches ++ s2.localStore) := by
  have hferr : ∃ msg, fetchOutcome (env.fetch ⟨s.nextId, s.now, s.eventBuffer⟩)
      = .error msg := by
    unfold deliveryFails at hfail
    rcases h : fetchOutcome (env.fetch ⟨s.nextId, s.now, s.eventBuffer⟩) with msg | u
    · exact ⟨msg, rfl⟩
    · rw [h] at hfail
      simp at hfail
  obtain ⟨msg, herr⟩ := hferr
  refine ⟨(flush_online_fetch env s hon hne).2.1, ?_, ?_⟩
  · unfold flush
    simp [hne, hon, sendBatch_noBeacon, herr, storeFailedBatch, hst]
  · rw [retry_state_failed env s2 hon2 hst]
    intro b hb
    exact List.mem_of_mem_filter hb

/-- Witness for C8 at a failing transport; the concrete spilled entry keeps
its identity through the sweep. -/
theorem C8_spill_fresh_identity_witness :
    (flush envAllFail stOnline false).fetchCalls
      = [⟨stOnline.nextId, stOnline.now, stOnline.eventBuffer⟩] ∧
    (flush envAllFail stOnline false).state.failedBatches
      = stOnline.failedBatches
          ++ [⟨stOnline.nextId + 1, stOnline.now, stOnline.eventBuffer⟩] ∧
    ((⟨0, 0, [1]⟩ : EventBatch Nat)
        ∈ (retryFailedBatches envAllFail stFailed1).state.failedBatches →
      (⟨0, 0, [1]⟩ : EventBatch Nat)
        ∈ stFailed1.failedBatches ++ stFailed1.localStore) :=
  ⟨(C8_spill_fresh_identity envAllFail stOnline stFailed1 rfl (by decide) rfl rfl rfl).1,
   (C8_spill_fresh_identity envAllFail stOnline stFailed1 rfl (by decide) rfl rfl rfl).2.1,
   fun hb => (C8_spill_fresh_identity envAllFail stOnline stFailed1 rfl (by decide)
      rfl rfl rfl).2.2 ⟨0, 0, [1]⟩ hb⟩

/-- C9 counterexample: constructing with the non-positive batch size 0
completes normally (the default 50 is silently substituted by the falsy-or),
and with batch size -1 the invalid value is accepted verbatim; no
configuration error is raised at construction time, refuting fail-fast
validation. -/
theorem C9_no_validation_counterexample :
    mkRequiredConfig { endpoint := "e", batchSize := some 0 }
      = { endpoint := "e", batchSize := 50, flushInterval := 5000
          maxRetries := 3, retryDelay := 1000 } ∧
    mkRequiredConfig { endpoint := "e", batchSize := some (-1) }
      = { endpoint := "e", batchSize := -1, flushInterval := 5000
          maxRetries := 3, retryDelay := 1000 } := by
  constructor <;> rfl

/-- C9 amended: EventBatcher construction performs no validation and never
raises any error: a batchSize of 0 is silently replaced by the default 50, a
negative batchSize is accepted verbatim, and under such a negative size every
single addEvent immediately triggers a delivery attempt instead of any error
being surfaced to the caller. -/
theorem C9_construction_never_fails (c : BatcherConfig) (v : Int)
    (env : SendEnv E) (s : BatcherState E) (e0 : E)
    (hv : c.batchSize = some v) (hneg : v < 0)
    (hcfg : s.config = mkRequiredConfig c)
    (hbuf : s.eventBuffer = [])
    (hon : s.isOnline = true) :
    (mkRequiredConfig c).batchSize = v ∧
    (addEvent env s e0).fetchCalls = [⟨s.nextId, s.now, [e0]⟩] := by
  have hbs : (mkRequiredConfig c).batchSize = v := by
    simp only [mkRequiredConfig, orDefault, hv]
    rw [if_neg (by omega)]
  have haddeq : addEvent env s e0 = flush env { s with eventBuffer := [e0] } false := by
    unfold addEvent
    rw [if_pos]
    · simp only [hbuf, List.nil_append]
    · show ((s.eventBuffer ++ [e0]).length : Int) ≥ s.config.batchSize
      rw [hbuf, hcfg, hbs]
      simp only [List.nil_append, List.length_cons, List.length_nil, Nat.cast_one,
        Nat.cast_zero, zero_add]
      omega
  refine ⟨hbs, ?_⟩
  rw [haddeq]
  exact (flush_online_fetch env { s with eventBuffer := [e0] } hon (by simp)).2.1

/-- Witness for C9 amended: construction with batchSize -1 and one addEvent. -/
theorem C9_construction_never_fails_witness :
    (mkRequiredConfig { endpoint := "e", batchSize := some (-1) }).batchSize = -1 ∧
    (addEvent envAllOk stNegSize 5).fetchCalls
      = [⟨stNegSize.nextId, stNegSize.now, [5]⟩] :=
  C9_construction_never_fails { endpoint := "e", batchSize := some (-1) } (-1)
    envAllOk stNegSize 5 rfl (by decide) rfl rfl rfl

/-- C10: a flush that runs with a non-empty buffer while Offline moves the
records to the spill store silently at the callback interface: no transport
call is made and neither the onSuccess nor the onError callback is invoked
for those records during that flush. -/
theorem C10_offline_flush_silent (env : SendEnv E) (s : BatcherState E) (u : Bool)
    (hoff : s.isOnline = false) (hne : s.eventBuffer ≠ []) :
    (flush env s u).onSuccessCalls = [] ∧
    (flush env s u).onErrorCalls = [] ∧
    (flush env s u).beaconCalls = [] ∧
    (flush env s u).fetchCalls = [] ∧
    (flush env s u).state.eventBuffer = [] ∧
    (flush env s u).state.failedBatches
      = s.failedBatches ++ [⟨s.nextId, s.now, s.eventBuffer⟩] := by
  unfold flush
  by_cases hsk : env.storageOk <;> simp [hne, hoff, storeFailedBatch, hsk]

/-- Witness for C10: offline batcher with one buffered record, urgent flag. -/
theorem C10_offline_flush_silent_witness :
    (flush envAllOk stOffline true).onSuccessCalls = [] ∧
    (flush envAllOk stOffline true).onErrorCalls = [] ∧
    (flush envAllOk stOffline true).beaconCalls = [] ∧
    (flush envAllOk stOffline true).fetchCalls = [] ∧
    (flush envAllOk stOffline true).state.eventBuffer = [] ∧
    (flush envAllOk stOffline true).state.failedBatches
      = stOffline.failedBatches
          ++ [⟨stOffline.nextId, stOffline.now, stOffline.eventBuffer⟩] :=
  C10_offline_flush_silent envAllOk stOffline true rfl (by decide)

end Observability
